import Mathlib

/-!
Verification development for the Venus-Tracking observation pipeline.

The definitions below are a shallow embedding of the Python sources:
  - src/position_tracking/solar_system_tracker.py  (orchestrator, scheduler)
  - src/atmospheric_model/model.py                 (atmosphere estimator)
  - src/data_logging/logger.py                     (dual-sink data logger)

Machine reals computed by the Python code are modelled as follows: values
that the code only moves around (oracle outputs, configuration numbers,
instants in seconds) are rationals; values produced by trigonometric
functions (phase, temperatures derived from phase) live in the real numbers.
The external skyfield ephemeris is modelled as an abstract deterministic
oracle, per the spec's external-collaborator boundary.
-/

namespace Venus

/-- Kilometers per astronomical unit (solar_system_tracker.py line 10). -/
def AU_TO_KM : ℚ := 149597870.7

/-- Python float modulo with positive divisor 360: result in [0, 360).
Used for `venus_lon.degrees % 360` (solar_system_tracker.py lines 165-166, 176). -/
def qmod360 (x : ℚ) : ℚ := x - 360 * (⌊x / 360⌋ : ℤ)

/-- Degrees to radians, `np.radians` as used at model.py line 57 and
solar_system_tracker.py line 160. -/
noncomputable def radiansOfDeg (d : ℝ) : ℝ := d * Real.pi / 180

/-- Illuminated fraction computed by the Atmosphere Estimator:
`phase = (1 + np.cos(np.radians(elongation))) / 2` (model.py line 57). -/
noncomputable def modelPhase (elongation : ℝ) : ℝ :=
  (1 + Real.cos (radiansOfDeg elongation)) / 2

/-- Illuminated fraction computed by the Orchestrator's orbital-parameter
computation: `phase = (1 + np.cos(np.radians(phase_angle))) / 2`
(solar_system_tracker.py line 160). -/
noncomputable def trackerPhase (phaseAngle : ℝ) : ℝ :=
  (1 + Real.cos (radiansOfDeg phaseAngle)) / 2

/-- Observer location dictionary (`location` in solar_system_tracker.py);
`name` is optional because the code uses `location.get('name', ...)`. -/
structure Location where
  name : Option String
  latitude : ℚ
  longitude : ℚ
  elevation : ℚ

/-- Configuration keys read by the tracker via `config.get(key, default)`. -/
structure Config where
  tracking_interval : Option ℚ
  calculate_all_planets : Option Bool

/-- `config.get('tracking_interval', 60)` (solar_system_tracker.py lines 183, 212). -/
def Config.trackingInterval (c : Config) : ℚ := c.tracking_interval.getD 60

/-- `config.get('calculate_all_planets', True)` (solar_system_tracker.py line 202). -/
def Config.calculateAllPlanetsFlag (c : Config) : Bool := c.calculate_all_planets.getD true

/-- Deterministic external ephemeris oracle (skyfield), keyed by lowercase
body name.  Each field corresponds to one kind of skyfield query issued by
solar_system_tracker.py: apparent altaz with distance, astrometric ra/dec,
angular separation from the Sun, Venus-centric observation of a body,
Earth-Sun separation seen from Venus, inter-body distance, and heliocentric
ecliptic longitude. -/
structure Oracle where
  altaz : String → ℚ → ℚ × ℚ × ℚ
  radec : String → ℚ → ℚ × ℚ
  sepFromSun : String → ℚ → ℚ
  obsFromVenus : String → ℚ → ℚ × ℚ × ℚ
  earthSunSepFromVenus : ℚ → ℚ
  pairDistance : String → String → ℚ → ℚ
  eclipticLon : String → ℚ → ℚ

/-- Python `str.lower()` on the ASCII identifiers used by the pipeline
(body names, format names), character by character. -/
def lowerName (s : String) : String := String.mk (s.data.map Char.toLower)

/-- Keys of `self.planets` (solar_system_tracker.py lines 17-27). -/
def planetNames : List String :=
  ["sun", "mercury", "venus", "earth", "mars", "jupiter", "saturn", "uranus", "neptune"]

/-- A body name resolves iff it is `moon` or a key of `self.planets`
(solar_system_tracker.py lines 40-44; lookup lowercases the name). -/
def isRegisteredBody (name : String) : Bool :=
  lowerName name = "moon" || planetNames.contains (lowerName name)

/-- Result dictionary of `calculate_body_position`
(solar_system_tracker.py lines 55-65). -/
structure PositionRecord where
  name : String
  altitude : ℚ
  azimuth : ℚ
  distance_au : ℚ
  distance_km : ℚ
  ra : ℚ
  dec : ℚ
  elongation : ℚ

/-- `calculate_body_position` (solar_system_tracker.py lines 38-65): an
unregistered name raises `ValueError` before any observation; for the Sun the
elongation is the constant 0, otherwise the separation from the Sun. -/
def calculate_body_position (o : Oracle) (body_name : String) (t : ℚ) :
    Except String PositionRecord :=
  if isRegisteredBody body_name then
    let lower := lowerName body_name
    let adist := o.altaz lower t
    let rd := o.radec lower t
    let elong := if lower = "sun" then 0 else o.sepFromSun lower t
    .ok { name := body_name
          altitude := adist.1
          azimuth := adist.2.1
          distance_au := adist.2.2
          distance_km := adist.2.2 * AU_TO_KM
          ra := rd.1
          dec := rd.2
          elongation := elong }
  else
    .error ("Unknown celestial body: " ++ body_name)

/-- Result dictionary of `calculate_venus_perspective`
(solar_system_tracker.py lines 67-93). -/
structure VenusPerspective where
  earth_ra : ℚ
  earth_dec : ℚ
  earth_distance_au : ℚ
  earth_distance_km : ℚ
  angle_from_sun : ℚ
  sun_ra : ℚ
  sun_dec : ℚ
  sun_distance_au : ℚ
  sun_distance_km : ℚ

/-- `calculate_venus_perspective` (solar_system_tracker.py lines 67-93). -/
def calculate_venus_perspective (o : Oracle) (t : ℚ) : VenusPerspective :=
  let e := o.obsFromVenus ("earth") t
  let s := o.obsFromVenus ("sun") t
  { earth_ra := e.1
    earth_dec := e.2.1
    earth_distance_au := e.2.2
    earth_distance_km := e.2.2 * AU_TO_KM
    angle_from_sun := o.earthSunSepFromVenus t
    sun_ra := s.1
    sun_dec := s.2.1
    sun_distance_au := s.2.2
    sun_distance_km := s.2.2 * AU_TO_KM }

/-- One entry of the `calculate_all_planets_positions` result
(solar_system_tracker.py lines 103-129); the Sun gets no elongation key. -/
structure PlanetRecord where
  altitude : ℚ
  azimuth : ℚ
  distance_au : ℚ
  distance_km : ℚ
  ra : ℚ
  dec : ℚ
  elongation : Option ℚ

/-- Record built inside the loop of `calculate_all_planets_positions`. -/
def planetEntry (o : Oracle) (t : ℚ) (p : String) : PlanetRecord :=
  let adist := o.altaz p t
  let rd := o.radec p t
  { altitude := adist.1
    azimuth := adist.2.1
    distance_au := adist.2.2
    distance_km := adist.2.2 * AU_TO_KM
    ra := rd.1
    dec := rd.2
    elongation := if p = "sun" then none else some (o.sepFromSun p t) }

/-- `calculate_all_planets_positions` (solar_system_tracker.py lines 94-131):
every planet except Earth, then the Moon (which always has an elongation). -/
def calculate_all_planets_positions (o : Oracle) (t : ℚ) : List (String × PlanetRecord) :=
  (planetNames.filter (fun p => p ≠ "earth")).map (fun p => (p, planetEntry o t p))
    ++ [("moon",
          let adist := o.altaz ("moon") t
          let rd := o.radec ("moon") t
          { altitude := adist.1
            azimuth := adist.2.1
            distance_au := adist.2.2
            distance_km := adist.2.2 * AU_TO_KM
            ra := rd.1
            dec := rd.2
            elongation := some (o.sepFromSun ("moon") t) })]

/-- Ordered pairs (p1, p2) with p2 strictly after p1 in the list, matching the
nested loops of `calculate_planet_distances` (solar_system_tracker.py
lines 137-147). -/
def upperPairs : List String → List (String × String)
  | [] => []
  | p :: rest => rest.map (fun q => (p, q)) ++ upperPairs rest

/-- `calculate_planet_distances` (solar_system_tracker.py lines 133-148). -/
def calculate_planet_distances (o : Oracle) (t : ℚ) :
    List ((String × String) × (ℚ × ℚ)) :=
  (upperPairs planetNames).map
    (fun pq => (pq, (o.pairDistance pq.1 pq.2 t, o.pairDistance pq.1 pq.2 t * AU_TO_KM)))

/-- Result of `calculate_orbital_parameters` (solar_system_tracker.py
lines 149-179); `illuminated_fraction` is real-valued (cosine). -/
structure OrbitalParams where
  distance_from_earth_au : ℚ
  distance_from_earth_km : ℚ
  phase_angle : ℚ
  illuminated_fraction : ℝ
  orbital_longitude : ℚ
  relative_to_earth : ℚ

/-- `calculate_orbital_parameters` (solar_system_tracker.py lines 149-179). -/
noncomputable def calculate_orbital_parameters (o : Oracle) (t : ℚ) : OrbitalParams :=
  let phase_angle := o.sepFromSun ("venus") t
  let vdist := (o.altaz ("venus") t).2.2
  let venus_longitude := qmod360 (o.eclipticLon ("venus") t)
  let earth_longitude := qmod360 (o.eclipticLon ("earth") t)
  { distance_from_earth_au := vdist
    distance_from_earth_km := vdist * AU_TO_KM
    phase_angle := phase_angle
    illuminated_fraction := trackerPhase (phase_angle : ℝ)
    orbital_longitude := venus_longitude
    relative_to_earth := qmod360 (venus_longitude - earth_longitude) }

/-- The full result dictionary of `calculate_all_positions`
(solar_system_tracker.py lines 186-204). -/
structure Snapshot where
  timestamp : ℚ
  location_name : String
  latitude : ℚ
  longitude : ℚ
  elevation : ℚ
  venus : PositionRecord
  sun : PositionRecord
  moon : PositionRecord
  venus_perspective : VenusPerspective
  orbital_parameters : OrbitalParams
  all_planets : Option (List (String × PlanetRecord))
  planet_distances : Option (List ((String × String) × (ℚ × ℚ)))

/-- Cache fields of the tracker (solar_system_tracker.py lines 35-36,
206-207): last Snapshot and last requested instant. -/
structure TrackerState where
  last_calculation : Option Snapshot
  last_calculation_time : Option ℚ

/-- Tracker state right after `__init__` (lines 35-36): both fields None. -/
def trackerInit : TrackerState := { last_calculation := none, last_calculation_time := none }

/-- Fresh computation of the `result` dictionary in `calculate_all_positions`
(solar_system_tracker.py lines 186-204); a failing body query would propagate
as an exception past the cache update. -/
noncomputable def computeSnapshot (o : Oracle) (cfg : Config) (loc : Location) (t : ℚ) :
    Except String Snapshot := do
  let venus ← calculate_body_position o ("venus") t
  let sun ← calculate_body_position o ("sun") t
  let moon ← calculate_body_position o ("moon") t
  pure { timestamp := t
         location_name := loc.name.getD "Unknown Location"
         latitude := loc.latitude
         longitude := loc.longitude
         elevation := loc.elevation
         venus := venus
         sun := sun
         moon := moon
         venus_perspective := calculate_venus_perspective o t
         orbital_parameters := calculate_orbital_parameters o t
         all_planets :=
           if cfg.calculateAllPlanetsFlag then some (calculate_all_planets_positions o t) else none
         planet_distances :=
           if cfg.calculateAllPlanetsFlag then some (calculate_planet_distances o t) else none }

/-- `calculate_all_positions` (solar_system_tracker.py lines 181-209).
The cache test is exactly the source's: `last_calculation_time` is set and
the signed difference `target_time - last_calculation_time` is below the
interval; on a hit the stored `last_calculation` (an Option, as in the
source) is returned with no oracle query; otherwise a fresh snapshot is
computed and both cache fields are overwritten (lines 206-207), which
happens only after the computation succeeds. -/
noncomputable def calculate_all_positions (o : Oracle) (cfg : Config) (loc : Location)
    (s : TrackerState) (t : ℚ) : Except String (Option Snapshot × TrackerState) :=
  match s.last_calculation_time with
  | some t1 =>
      if t - t1 < cfg.trackingInterval then
        .ok (s.last_calculation, s)
      else
        (computeSnapshot o cfg loc t).map
          (fun r => (some r, { last_calculation := some r, last_calculation_time := some t }))
  | none =>
      (computeSnapshot o cfg loc t).map
        (fun r => (some r, { last_calculation := some r, last_calculation_time := some t }))

/-- State-passing form of `calculate_body_position`: the method reads the
planet registry and the oracle but contains no assignment to the cache
fields (solar_system_tracker.py lines 38-65), so the tracker state is
returned unchanged. -/
def calcBodyStep (o : Oracle) (s : TrackerState) (body_name : String) (t : ℚ) :
    Except String PositionRecord × TrackerState :=
  (calculate_body_position o body_name t, s)

/-! Realtime scheduler timing, from `track_real_time`
(solar_system_tracker.py lines 221-240).  Each loop iteration reads the
clock once at the top (`current_time = datetime.utcnow()`, line 223), runs
the computation and callback (taking `compute` seconds), sets
`next_update = current_time + interval` (line 235), and sleeps for
`next_update - utcnow()` only when that amount is positive (lines 236-239). -/

/-- The deadline computed at line 235: the iteration's own start time plus
the interval. -/
def nextUpdateTime (interval now : ℚ) : ℚ := now + interval

/-- Start time of the next loop iteration, given that the current iteration
woke at `now` and its computation plus callback took `compute` seconds:
after the work the clock reads `now + compute`; the loop sleeps
`next_update - (now + compute)` only if that is positive (lines 236-239). -/
def nextIterStart (interval now compute : ℚ) : ℚ :=
  let next_update := nextUpdateTime interval now
  let afterWork := now + compute
  let sleep_seconds := next_update - afterWork
  if sleep_seconds > 0 then afterWork + sleep_seconds else afterWork

/-! Atmosphere estimator, from model.py. -/

/-- Sentences that `_generate_notes` (model.py lines 126-147) can emit.  The
first six come from the three threshold if/elif groups, the next two are
the unconditional surface-temperature and surface-pressure summary lines
(lines 144-145), and `standard` is the fallback of line 147. -/
inductive Note
  | nearSuperior
  | nearInferior
  | fullPhase
  | crescentPhase
  | tempHigh
  | tempLow
  | surfaceTemp
  | surfacePressure
  | standard
deriving DecidableEq, Repr

/-- `_generate_notes(temperature, phase, elongation)` (model.py lines
126-147), at the granularity of whole sentences: the list of appended
sentences, where line 147 returns the joined list when non-empty and the
default sentence otherwise. -/
noncomputable def generate_notes (temperature phase elongation : ℝ) : List Note :=
  let notes : List Note := []
  let notes := if elongation < 10 then notes ++ [Note.nearSuperior]
    else if elongation > 160 then notes ++ [Note.nearInferior] else notes
  let notes := if phase > 0.8 then notes ++ [Note.fullPhase]
    else if phase < 0.2 then notes ++ [Note.crescentPhase] else notes
  let notes := if temperature > 220 then notes ++ [Note.tempHigh]
    else if temperature < 160 then notes ++ [Note.tempLow] else notes
  let notes := notes ++ [Note.surfaceTemp, Note.surfacePressure]
  if notes = [] then [Note.standard] else notes

/-- The elongation if/elif group of `_generate_notes` (model.py lines 129-132). -/
noncomputable def elongationNotes (elongation : ℝ) : List Note :=
  if elongation < 10 then [Note.nearSuperior]
  else if elongation > 160 then [Note.nearInferior] else []

/-- The phase if/elif group of `_generate_notes` (model.py lines 134-137). -/
noncomputable def phaseNotes (phase : ℝ) : List Note :=
  if phase > 0.8 then [Note.fullPhase]
  else if phase < 0.2 then [Note.crescentPhase] else []

/-- The temperature if/elif group of `_generate_notes` (model.py lines 139-142). -/
noncomputable def temperatureNotes (temperature : ℝ) : List Note :=
  if temperature > 220 then [Note.tempHigh]
  else if temperature < 160 then [Note.tempLow] else []

/-- The six sentences owned by the threshold rules. -/
def thresholdNotes : List Note :=
  [Note.nearSuperior, Note.nearInferior, Note.fullPhase,
   Note.crescentPhase, Note.tempHigh, Note.tempLow]

/-- Fixed composition table (model.py lines 6-15), in insertion order. -/
def composition : List (String × ℚ) :=
  [("CO2", 96.5), ("N2", 3.5), ("SO2", 0.015), ("Ar", 0.007),
   ("CO", 0.0017), ("H2O", 0.002), ("He", 0.0012), ("Ne", 0.0007)]

/-- Result of `AtmosphericModel.calculate_parameters` (model.py lines
52-124), flattened to one record. -/
structure AtmosphereRecord where
  cloud_top_temperature_k : ℝ
  cloud_top_temperature_c : ℝ
  cloud_top_pressure_bar : ℚ
  cloud_top_pressure_atm : ℚ
  cloud_top_pressure_kpa : ℚ
  surface_temperature_k : ℚ
  surface_temperature_c : ℚ
  ground_temperature_k : ℚ
  ground_temperature_c : ℚ
  surface_pressure_bar : ℝ
  surface_pressure_atm : ℝ
  surface_pressure_kpa : ℝ
  surface_wind_speed_m_per_s : ℝ
  surface_wind_speed_km_per_h : ℝ
  surface_light_intensity_lux : ℝ
  compositionTable : List (String × ℚ)
  main_compounds : List String
  phase : ℝ
  notes : List Note

/-- `calculate_parameters(time, position)` (model.py lines 52-124).  The
source reads `position['distance']['au']` and the time argument but uses
neither; they are kept as parameters for fidelity.  Day/night cloud-top
baselines are 230 K and 150 K (lines 60-61); conversion constants are
`bar_to_atm = 0.986923`, `bar_to_kpa = 100`, `k_to_c = k - 273.15`,
`m_per_s_to_km_per_h = 3.6` (lines 29-34). -/
noncomputable def calculate_parameters (timeArg : ℚ) (distance_au : ℝ) (elongation : ℝ) :
    AtmosphereRecord :=
  let phase := modelPhase elongation
  let cloud_top_temp_day : ℝ := 230
  let cloud_top_temp_night : ℝ := 150
  let cloud_top_temperature := phase * cloud_top_temp_day + (1 - phase) * cloud_top_temp_night
  let surface_temperature : ℚ := 737
  let ground_temperature : ℚ := 737
  let pressure_variation := Real.sin (radiansOfDeg elongation) * 0.5
  let surface_pressure : ℝ := 92 + pressure_variation
  let base_wind_speed : ℝ := 0.5
  let wind_speed_variation := phase * 2
  let surface_wind_speed := base_wind_speed + wind_speed_variation
  let base_light : ℝ := 10000
  let light_intensity := base_light * phase ^ 2
  let main_compounds :=
    ((composition.mergeSort (fun a b => decide (b.2 ≤ a.2))).take 3).map Prod.fst
  { cloud_top_temperature_k := cloud_top_temperature
    cloud_top_temperature_c := cloud_top_temperature - 273.15
    cloud_top_pressure_bar := 0.5
    cloud_top_pressure_atm := 0.5 * 0.986923
    cloud_top_pressure_kpa := 0.5 * 100
    surface_temperature_k := surface_temperature
    surface_temperature_c := surface_temperature - 273.15
    ground_temperature_k := ground_temperature
    ground_temperature_c := ground_temperature - 273.15
    surface_pressure_bar := surface_pressure
    surface_pressure_atm := surface_pressure * 0.986923
    surface_pressure_kpa := surface_pressure * 100
    surface_wind_speed_m_per_s := surface_wind_speed
    surface_wind_speed_km_per_h := surface_wind_speed * 3.6
    surface_light_intensity_lux := light_intensity
    compositionTable := composition
    main_compounds := main_compounds
    phase := phase
    notes := generate_notes cloud_top_temperature phase elongation }

/-! Data logger, from data_logging/logger.py.  Cell values in a log entry
are strings, numbers, or null (`None`). -/

/-- A cell value of a log entry. -/
inductive Value
  | str : String → Value
  | num : ℚ → Value
  | null : Value
deriving DecidableEq, Repr

/-- A log entry: an ordered dictionary of column name to value.  All keys
written by `log_entry` are distinct, so `dict.update` is list append. -/
abbrev Entry := List (String × Value)

/-- Keys of an entry, in insertion order. -/
def entryCols (e : Entry) : List String := e.map Prod.fst

/-- Cell lookup in an entry; `none` models a missing key (pandas NaN,
serialized as an empty/null cell). -/
def lookupCell : Entry → String → Option Value
  | [], _ => none
  | (k, v) :: rest, c => if k = c then some v else lookupCell rest c

/-- Append a column name if it is not yet present (pandas first-appearance
column ordering). -/
def insertCol (acc : List String) (k : String) : List String :=
  if k ∈ acc then acc else acc ++ [k]

/-- Union of column lists, keeping first-appearance order. -/
def unionCols (a b : List String) : List String := b.foldl insertCol a

/-- A pandas DataFrame at the granularity the logger uses: a column list
plus dictionary rows; a row may lack some columns (its cells read as null). -/
structure Frame where
  cols : List String
  rows : List Entry
deriving DecidableEq, Repr

/-- `pd.DataFrame(list_of_dicts)`: columns are the union of the dict keys in
first-appearance order. -/
def frameOfEntries (es : List Entry) : Frame :=
  { cols := es.foldl (fun acc e => unionCols acc (entryCols e)) []
    rows := es }

/-- `pd.concat([a, b], ignore_index=True)`: columns are unioned, rows are
concatenated, cells absent from a row become NaN/null. -/
def concatFrames (a b : Frame) : Frame :=
  { cols := unionCols a.cols b.cols
    rows := a.rows ++ b.rows }

/-- `df.to_csv(...)` at cell granularity: for every row one cell per column,
absent keys giving `none` (serialized as the empty field, i.e. null); the
serialization is total and cannot fail on a missing key. -/
def csvCells (f : Frame) : List (List (Option Value)) :=
  f.rows.map (fun r => f.cols.map (fun c => lookupCell r c))

/-- The `position` dictionary consumed by `log_entry` (logger.py lines
22-35): keys read with `.get` may be absent (then logged as None), keys
read by subscript are required; `distance` is either a `{au, km}` dict or a
bare number (lines 30-31). -/
structure LoggedPosition where
  observer_location_name : Option String
  observer_latitude : Option ℚ
  observer_longitude : Option ℚ
  altitude : ℚ
  azimuth : ℚ
  distance : ℚ ⊕ (ℚ × ℚ)
  ra : Option ℚ
  dec : Option ℚ
  elongation : Option ℚ

/-- The cloud section of an atmosphere dictionary (logger.py lines 37-44). -/
structure CloudSection where
  temp_k : ℚ
  temp_c : ℚ
  pressure_bar : ℚ
  pressure_atm : ℚ
  pressure_kpa : ℚ

/-- The surface section of an atmosphere dictionary (logger.py lines 45-56). -/
structure SurfaceSection where
  temp_k : ℚ
  temp_c : ℚ
  ground_k : ℚ
  ground_c : ℚ
  pressure_bar : ℚ
  pressure_atm : ℚ
  pressure_kpa : ℚ
  wind_m_s : ℚ
  wind_km_h : ℚ

/-- The atmosphere dictionary consumed by `log_entry`: each section is
keyed off a membership test (`if key in atmosphere`, logger.py lines
36-72), so each is optional. -/
structure LoggedAtmosphere where
  cloud : Option CloudSection
  surface : Option SurfaceSection
  light_lux : Option ℚ
  main_compounds : Option (List String)
  phase : Option ℚ
  notes : Option String

/-- Value of an optional number read with `.get`: None becomes null. -/
def optValue : Option ℚ → Value
  | some q => Value.num q
  | none => Value.null

/-- The unconditional part of the entry built by `log_entry` (logger.py
lines 23-35). -/
def baseEntry (timeIso : String) (p : LoggedPosition) : Entry :=
  [("timestamp", Value.str timeIso),
   ("location_name", Value.str (p.observer_location_name.getD "Unknown Location")),
   ("observer_latitude", optValue p.observer_latitude),
   ("observer_longitude", optValue p.observer_longitude),
   ("altitude", Value.num p.altitude),
   ("azimuth", Value.num p.azimuth),
   ("distance_au", Value.num (match p.distance with
     | Sum.inr aukm => aukm.1
     | Sum.inl d => d)),
   ("distance_km", Value.num (match p.distance with
     | Sum.inr aukm => aukm.2
     | Sum.inl d => d * AU_TO_KM)),
   ("ra", optValue p.ra),
   ("dec", optValue p.dec),
   ("elongation", optValue p.elongation)]

/-- The conditional atmosphere part of the entry (logger.py lines 36-72):
each present section appends its keys via `entry.update`. -/
def atmosphereEntry (a : LoggedAtmosphere) : Entry :=
  (match a.cloud with
   | some c =>
     [("cloud_temp_k", Value.num c.temp_k),
      ("cloud_temp_c", Value.num c.temp_c),
      ("cloud_pressure_bar", Value.num c.pressure_bar),
      ("cloud_pressure_atm", Value.num c.pressure_atm),
      ("cloud_pressure_kpa", Value.num c.pressure_kpa)]
   | none => [])
  ++ (match a.surface with
   | some s =>
     [("surface_temp_k", Value.num s.temp_k),
      ("surface_temp_c", Value.num s.temp_c),
      ("ground_temp_k", Value.num s.ground_k),
      ("ground_temp_c", Value.num s.ground_c),
      ("surface_pressure_bar", Value.num s.pressure_bar),
      ("surface_pressure_atm", Value.num s.pressure_atm),
      ("surface_pressure_kpa", Value.num s.pressure_kpa),
      ("wind_speed_m_s", Value.num s.wind_m_s),
      ("wind_speed_km_h", Value.num s.wind_km_h)]
   | none => [])
  ++ (match a.light_lux with
   | some l => [("light_intensity_lux", Value.num l)]
   | none => [])
  ++ (match a.main_compounds with
   | some cs => [("main_compounds", Value.str (String.intercalate "," cs))]
   | none => [])
  ++ (match a.phase with
   | some ph => [("phase", Value.num ph)]
   | none => [])
  ++ (match a.notes with
   | some n => [("notes", Value.str n)]
   | none => [])

/-- The flattened entry appended to the in-memory buffer by `log_entry`
(logger.py lines 23-74); a None atmosphere contributes nothing. -/
def mkEntry (timeIso : String) (p : LoggedPosition) (a : Option LoggedAtmosphere) : Entry :=
  baseEntry timeIso p ++ (match a with
    | some atm => atmosphereEntry atm
    | none => [])

/-- The raw nested record appended to the structured sink (logger.py lines
75-79). -/
structure RawEntry where
  timeIso : String
  position : LoggedPosition
  atmosphere : Option LoggedAtmosphere

/-- State of the structured (JSON) sink file on disk: missing, unparsable,
or a document with an `entries` list. -/
inductive JsonFile
  | missing
  | invalid
  | valid : List RawEntry → JsonFile

/-- Entries currently recoverable from the structured sink (an unparsable
document degrades to an empty `entries` list, logger.py lines 97-100). -/
def entriesOf : JsonFile → List RawEntry
  | JsonFile.missing => []
  | JsonFile.invalid => []
  | JsonFile.valid es => es

/-- `_write_to_json` (logger.py lines 91-112): a missing file is written
fresh with a one-element `entries` list; otherwise the document is read
whole (a parse failure degrading to an empty list), the entry is appended,
and the document is rewritten whole. -/
def write_to_json (f : JsonFile) (e : RawEntry) : JsonFile :=
  match f with
  | JsonFile.missing => JsonFile.valid [e]
  | JsonFile.invalid => JsonFile.valid [e]
  | JsonFile.valid es => JsonFile.valid (es ++ [e])

/-- State of a `DataLogger` (logger.py lines 6-20): the immutable baseline
parsed from a pre-existing tabular file (None when the file was missing,
empty, or unparsable), the in-memory buffer, the structured sink, and the
two output paths. -/
structure LoggerState where
  existing_data : Option Frame
  data : List Entry
  jsonFile : JsonFile
  output_file : String
  json_output_file : String

/-- `DataLogger.__init__` (logger.py lines 6-20): buffer starts empty, the
baseline is whatever was parsed from disk.  The structured sink file and
both paths are taken as parameters of the session. -/
def openLogger (baseline : Option Frame) (j0 : JsonFile) (of jf : String) : LoggerState :=
  { existing_data := baseline
    data := []
    jsonFile := j0
    output_file := of
    json_output_file := jf }

/-- `_write_to_file` (logger.py lines 83-89): the tabular sink is rewritten
whole as the baseline concatenated with a DataFrame of the buffer. -/
def write_to_file (s : LoggerState) : Frame :=
  let df := frameOfEntries s.data
  match s.existing_data with
  | some base => concatFrames base df
  | none => df

/-- `log_entry` (logger.py lines 22-81): build the flattened entry, append
it to the buffer, rewrite the tabular sink (whose content is the derived
`write_to_file` of the new state), and append the raw record to the
structured sink. -/
def log_entry (s : LoggerState) (timeIso : String) (p : LoggedPosition)
    (a : Option LoggedAtmosphere) : LoggerState :=
  let entry := mkEntry timeIso p a
  { s with
    data := s.data ++ [entry]
    jsonFile := write_to_json s.jsonFile { timeIso := timeIso, position := p, atmosphere := a } }

/-- `export_data` (logger.py lines 114-134): an empty buffer returns None
before anything is built or written; otherwise the combined
baseline-plus-buffer frame is written to the format's path.  The result is
the path written together with the content written there; `none` means no
path returned and no file touched. -/
def export_data (s : LoggerState) (format_type : String) (output_path : Option String) :
    Option (String × Frame) :=
  if s.data = [] then none
  else
    let df := frameOfEntries s.data
    let df := match s.existing_data with
      | some base => concatFrames base df
      | none => df
    if lowerName format_type = "csv" then some (output_path.getD s.output_file, df)
    else if lowerName format_type = "json" then some (output_path.getD s.json_output_file, df)
    else none

/-- One logical tracking-session input to `log_entry`. -/
structure LogInput where
  timeIso : String
  position : LoggedPosition
  atmosphere : Option LoggedAtmosphere

/-- A session: successive `log_entry` calls on one logger. -/
def runSession (s : LoggerState) (inputs : List LogInput) : LoggerState :=
  inputs.foldl (fun st i => log_entry st i.timeIso i.position i.atmosphere) s

/-- Baseline rows of an opened logger (no file, empty file, or parse
failure all give an empty baseline). -/
def baselineRows : Option Frame → List Entry
  | some fr => fr.rows
  | none => []

/-- Well-formedness of a baseline parsed from a CSV file with at least one
data row: every row carries exactly the header's columns. -/
def baselineWf : Option Frame → Prop
  | some fr => fr.rows ≠ [] ∧ ∀ r ∈ fr.rows, entryCols r = fr.cols
  | none => True

/-! Helper lemmas about the phase formula. -/

lemma modelPhase_zero : modelPhase 0 = 1 := by
  unfold modelPhase radiansOfDeg
  norm_num

lemma modelPhase_oneeighty : modelPhase 180 = 0 := by
  unfold modelPhase radiansOfDeg
  have h : (180 : ℝ) * Real.pi / 180 = Real.pi := by ring
  rw [h, Real.cos_pi]
  norm_num

lemma modelPhase_ninety : modelPhase 90 = 1 / 2 := by
  unfold modelPhase radiansOfDeg
  have h : (90 : ℝ) * Real.pi / 180 = Real.pi / 2 := by ring
  rw [h, Real.cos_pi_div_two]
  norm_num

lemma modelPhase_nonneg (e : ℝ) : 0 ≤ modelPhase e := by
  have h := Real.neg_one_le_cos (radiansOfDeg e)
  unfold modelPhase
  linarith

lemma modelPhase_le_one (e : ℝ) : modelPhase e ≤ 1 := by
  have h := Real.cos_le_one (radiansOfDeg e)
  unfold modelPhase
  linarith

/-! Helper lemmas about the notes generator. -/

lemma generate_notes_split (t p e : ℝ) :
    generate_notes t p e
      = elongationNotes e ++ phaseNotes p ++ temperatureNotes t
          ++ [Note.surfaceTemp, Note.surfacePressure] := by
  simp only [generate_notes, elongationNotes, phaseNotes, temperatureNotes]
  split_ifs <;> simp_all

lemma calc_params_notes (t : ℚ) (d e : ℝ) :
    (calculate_parameters t d e).notes
      = generate_notes (modelPhase e * 230 + (1 - modelPhase e) * 150) (modelPhase e) e := rfl

lemma elongationNotes_mid : elongationNotes (90 : ℝ) = [] := by
  unfold elongationNotes
  rw [if_neg (by norm_num), if_neg (by norm_num)]

lemma phaseNotes_mid : phaseNotes ((1 : ℝ) / 2) = [] := by
  unfold phaseNotes
  rw [if_neg (by norm_num), if_neg (by norm_num)]

lemma temperatureNotes_mid : temperatureNotes (190 : ℝ) = [] := by
  unfold temperatureNotes
  rw [if_neg (by norm_num), if_neg (by norm_num)]

/-! Claim C2: the illuminated-fraction phase formula. -/

/-- C2: for every elongation e in [0, 180], the illuminated-fraction phase
computed by the Atmosphere Estimator (model.py line 57), and equally by the
Orchestrator's orbital-parameter computation (solar_system_tracker.py line
160), equals (1 + cos(e*pi/180))/2, lies in [0, 1], and takes the value 1 at
elongation 0 and 0 at elongation 180. -/
theorem phase_formula_correct (e : ℝ) (h0 : 0 ≤ e) (h1 : e ≤ 180) :
    modelPhase e = (1 + Real.cos (e * Real.pi / 180)) / 2 ∧
    trackerPhase e = modelPhase e ∧
    (∀ (timeArg : ℚ) (d : ℝ), (calculate_parameters timeArg d e).phase = modelPhase e) ∧
    (∀ (o : Oracle) (t : ℚ),
      (calculate_orbital_parameters o t).illuminated_fraction
        = trackerPhase ((o.sepFromSun ("venus") t : ℚ) : ℝ)) ∧
    0 ≤ modelPhase e ∧ modelPhase e ≤ 1 ∧
    modelPhase 0 = 1 ∧ modelPhase 180 = 0 := by
  refine ⟨rfl, rfl, fun _ _ => rfl, fun _ _ => rfl, modelPhase_nonneg e, modelPhase_le_one e,
    modelPhase_zero, modelPhase_oneeighty⟩

/-- Witness for C2 at the concrete elongation 90. -/
theorem phase_formula_correct_witness :
    0 ≤ modelPhase 90 ∧ modelPhase 90 ≤ 1 := by
  obtain ⟨-, -, -, -, hlo, hhi, -, -⟩ :=
    phase_formula_correct 90 (by norm_num) (by norm_num)
  exact ⟨hlo, hhi⟩

/-! Claim C7: cloud-top temperature interpolation. -/

/-- C7: for every elongation e in [0, 180], the estimated cloud-top
temperature equals the linear interpolation
phase(e) * 230 + (1 - phase(e)) * 150 between the day baseline 230 K and the
night baseline 150 K (model.py lines 60-62); in particular it is exactly
230 K at elongation 0 and exactly 150 K at elongation 180. -/
theorem cloud_temp_interpolation (timeArg : ℚ) (d e : ℝ) (h0 : 0 ≤ e) (h1 : e ≤ 180) :
    (calculate_parameters timeArg d e).cloud_top_temperature_k
      = modelPhase e * 230 + (1 - modelPhase e) * 150 ∧
    (calculate_parameters timeArg d 0).cloud_top_temperature_k = 230 ∧
    (calculate_parameters timeArg d 180).cloud_top_temperature_k = 150 := by
  refine ⟨rfl, ?_, ?_⟩
  · show modelPhase 0 * 230 + (1 - modelPhase 0) * 150 = 230
    rw [modelPhase_zero]; ring
  · show modelPhase 180 * 230 + (1 - modelPhase 180) * 150 = 150
    rw [modelPhase_oneeighty]; ring

/-- Witness for C7 at elongation 0. -/
theorem cloud_temp_interpolation_witness :
    (calculate_parameters 0 0 0).cloud_top_temperature_k = 230 :=
  (cloud_temp_interpolation 0 0 0 (by norm_num) (by norm_num)).2.1

/-! Claim C3: scheduler deadlines.  The claim says the next tick's deadline
is the previous deadline plus the interval; the source (line 235) instead
computes it from the iteration's own start time, so after a late tick the
cadence re-bases rather than resuming. -/

/-- C3 counterexample: with interval 10, a tick that wakes at time 0 and
whose work takes 25 seconds has deadline 10; the next iteration starts at
25 and its deadline is 25 + 10 = 35, not the previous deadline plus the
interval (20). -/
theorem scheduler_deadline_counterexample :
    nextIterStart 10 0 25 = 25 ∧
    nextUpdateTime 10 (nextIterStart 10 0 25) = 35 ∧
    nextUpdateTime 10 0 + 10 = 20 ∧
    nextUpdateTime 10 (nextIterStart 10 0 25) ≠ nextUpdateTime 10 0 + 10 := by
  norm_num [nextUpdateTime, nextIterStart]

/-- C3 amended: each iteration's deadline is its own observed start time
plus the interval (line 235).  When the tick's work fits in the interval the
loop sleeps exactly to the deadline, so the next deadline is the previous
deadline plus the interval; when the work overruns, the wait is clamped to
zero (lines 238-239), the late tick's successor runs immediately at the end
of the work, and subsequent deadlines re-base from that late start instead
of resuming the original cadence. -/
theorem scheduler_deadline_amended (interval now compute : ℚ) :
    nextUpdateTime interval now = now + interval ∧
    (compute ≤ interval →
      nextIterStart interval now compute = now + interval ∧
      nextUpdateTime interval (nextIterStart interval now compute)
        = nextUpdateTime interval now + interval) ∧
    (interval < compute →
      nextIterStart interval now compute = now + compute ∧
      nextUpdateTime interval (nextIterStart interval now compute)
        = now + compute + interval) := by
  simp only [nextIterStart, nextUpdateTime]
  refine ⟨by trivial, fun h => ?_, fun h => ?_⟩
  · split_ifs with hs
    · constructor <;> ring
    · push_neg at hs
      constructor <;> linarith
  · rw [if_neg (not_lt.mpr (by linarith : now + interval - (now + compute) ≤ 0))]
    constructor <;> trivial

/-- Witness for C3's amended statement: an on-time tick (work 3 < interval
10) keeps the 10-second cadence. -/
theorem scheduler_deadline_amended_witness :
    nextIterStart 10 0 3 = 0 + 10 ∧
    nextUpdateTime 10 (nextIterStart 10 0 3) = nextUpdateTime 10 0 + 10 :=
  (scheduler_deadline_amended 10 0 3).2.1 (by norm_num)

/-! Claim C8: note generation.  The claim says that when no threshold rule
fires the notes are a single default sentence; the source unconditionally
appends the surface-temperature and surface-pressure summary sentences
(model.py lines 144-145), so the no-rule case yields those two sentences and
the default of line 147 is unreachable. -/

/-- C8 counterexample: at elongation 90 the pipeline's phase is 1/2 and the
cloud-top temperature is 190 K, so no threshold rule fires, yet the notes
are the two unconditional summary sentences -- not a single default
sentence. -/
theorem notes_default_counterexample :
    elongationNotes (90 : ℝ) = [] ∧
    phaseNotes (calculate_parameters 0 0 90).phase = [] ∧
    temperatureNotes (calculate_parameters 0 0 90).cloud_top_temperature_k = [] ∧
    (calculate_parameters 0 0 90).notes = [Note.surfaceTemp, Note.surfacePressure] ∧
    (calculate_parameters 0 0 90).notes ≠ [Note.standard] ∧
    (calculate_parameters 0 0 90).notes.length ≠ 1 := by
  have hphase : (calculate_parameters 0 0 90).phase = (1 : ℝ) / 2 := by
    show modelPhase 90 = (1 : ℝ) / 2
    exact modelPhase_ninety
  have htemp : (calculate_parameters 0 0 90).cloud_top_temperature_k = (190 : ℝ) := by
    show modelPhase 90 * 230 + (1 - modelPhase 90) * 150 = (190 : ℝ)
    rw [modelPhase_ninety]; ring
  have hnotes : (calculate_parameters 0 0 90).notes
      = [Note.surfaceTemp, Note.surfacePressure] := by
    rw [calc_params_notes, generate_notes_split, modelPhase_ninety]
    have h190 : (1 : ℝ) / 2 * 230 + (1 - 1 / 2) * 150 = 190 := by ring
    rw [h190, elongationNotes_mid, phaseNotes_mid, temperatureNotes_mid]
    rfl
  refine ⟨elongationNotes_mid, ?_, ?_, hnotes, ?_, ?_⟩
  · rw [hphase]; exact phaseNotes_mid
  · rw [htemp]; exact temperatureNotes_mid
  · rw [hnotes]; simp
  · rw [hnotes]; simp

/-- C8 amended: the notes are the concatenation, in fixed rule order, of the
three independently evaluated threshold groups (each contributing at most
one sentence) followed by the two unconditional summary sentences; the
default sentence is unreachable, and on an input where no threshold rule
fires the notes are exactly the two summary sentences rather than a single
default sentence. -/
theorem notes_rules_amended (t p e : ℝ) :
    generate_notes t p e
      = elongationNotes e ++ phaseNotes p ++ temperatureNotes t
          ++ [Note.surfaceTemp, Note.surfacePressure] ∧
    (elongationNotes e).length ≤ 1 ∧
    (phaseNotes p).length ≤ 1 ∧
    (temperatureNotes t).length ≤ 1 ∧
    Note.standard ∉ generate_notes t p e ∧
    (elongationNotes e = [] → phaseNotes p = [] → temperatureNotes t = [] →
      generate_notes t p e = [Note.surfaceTemp, Note.surfacePressure]) := by
  refine ⟨generate_notes_split t p e, ?_, ?_, ?_, ?_, ?_⟩
  · unfold elongationNotes; split_ifs <;> simp
  · unfold phaseNotes; split_ifs <;> simp
  · unfold temperatureNotes; split_ifs <;> simp
  · rw [generate_notes_split]
    unfold elongationNotes phaseNotes temperatureNotes
    split_ifs <;> simp
  · intro hE hP hT
    rw [generate_notes_split, hE, hP, hT]
    rfl

/-- Witness for C8's amended statement at the concrete no-rule input
(temperature 190, phase 1/2, elongation 90). -/
theorem notes_rules_amended_witness :
    generate_notes 190 (1 / 2) 90 = [Note.surfaceTemp, Note.surfacePressure] :=
  (notes_rules_amended 190 (1 / 2) 90).2.2.2.2.2
    elongationNotes_mid phaseNotes_mid temperatureNotes_mid

/-! Helper lemmas about the orchestrator cache. -/

/-- The fresh computation cannot fail: the three bodies it queries are all
registered, and the resulting snapshot's timestamp is the requested
instant. -/
lemma computeSnapshot_ok (o : Oracle) (cfg : Config) (loc : Location) (t : ℚ) :
    ∃ snap : Snapshot, computeSnapshot o cfg loc t = .ok snap ∧ snap.timestamp = t :=
  ⟨_, rfl, rfl⟩

/-- Cache hit: a set last-calculation time within the interval returns the
stored snapshot and leaves the state unchanged, for any oracle. -/
lemma calc_all_hit (o : Oracle) (cfg : Config) (loc : Location) (s : TrackerState)
    (t1 t : ℚ) (hs : s.last_calculation_time = some t1)
    (hlt : t - t1 < cfg.trackingInterval) :
    calculate_all_positions o cfg loc s t = .ok (s.last_calculation, s) := by
  unfold calculate_all_positions
  rw [hs]
  simp [hlt]

/-- Cache miss with a set last-calculation time: recompute and overwrite
both cache fields. -/
lemma calc_all_miss (o : Oracle) (cfg : Config) (loc : Location) (s : TrackerState)
    (t1 t : ℚ) (hs : s.last_calculation_time = some t1)
    (hge : cfg.trackingInterval ≤ t - t1) :
    calculate_all_positions o cfg loc s t
      = (computeSnapshot o cfg loc t).map
          (fun r => (some r, { last_calculation := some r, last_calculation_time := some t })) := by
  unfold calculate_all_positions
  rw [hs]
  simp [not_lt.mpr hge]

/-- First call: an unset last-calculation time always computes. -/
lemma calc_all_none (o : Oracle) (cfg : Config) (loc : Location) (s : TrackerState)
    (t : ℚ) (hs : s.last_calculation_time = none) :
    calculate_all_positions o cfg loc s t
      = (computeSnapshot o cfg loc t).map
          (fun r => (some r, { last_calculation := some r, last_calculation_time := some t })) := by
  unfold calculate_all_positions
  rw [hs]

/-! Claim C1: single-slot memoization of `calculate_all_positions`. -/

/-- C1: starting from a fresh orchestrator, calculate(t1) performs the one
fresh oracle computation and fills the single cache slot with (t1, snap1);
a second call at t2 with t2 - t1 < interval returns exactly the cached
snapshot with the state unchanged, and does so for every oracle (hence
makes no oracle query, so across the two calls the oracle computation
happened exactly once, i.e. only at t1); with t2 - t1 >= interval the
second call performs a fresh computation and replaces the single cache
slot with the new snapshot keyed at t2. -/
theorem calculate_cache_behavior (o : Oracle) (cfg : Config) (loc : Location) (t1 t2 : ℚ) :
    ∃ snap1 : Snapshot,
      computeSnapshot o cfg loc t1 = .ok snap1 ∧
      calculate_all_positions o cfg loc trackerInit t1
        = .ok (some snap1,
            { last_calculation := some snap1, last_calculation_time := some t1 }) ∧
      (t2 - t1 < cfg.trackingInterval →
        ∀ o' : Oracle,
          calculate_all_positions o' cfg loc
              { last_calculation := some snap1, last_calculation_time := some t1 } t2
            = .ok (some snap1,
                { last_calculation := some snap1, last_calculation_time := some t1 })) ∧
      (cfg.trackingInterval ≤ t2 - t1 →
        ∃ snap2 : Snapshot,
          computeSnapshot o cfg loc t2 = .ok snap2 ∧
          calculate_all_positions o cfg loc
              { last_calculation := some snap1, last_calculation_time := some t1 } t2
            = .ok (some snap2,
                { last_calculation := some snap2, last_calculation_time := some t2 })) := by
  obtain ⟨snap1, h1, -⟩ := computeSnapshot_ok o cfg loc t1
  refine ⟨snap1, h1, ?_, ?_, ?_⟩
  · rw [calc_all_none o cfg loc trackerInit t1 rfl, h1]
    rfl
  · intro hlt o'
    exact calc_all_hit o' cfg loc
      { last_calculation := some snap1, last_calculation_time := some t1 } t1 t2 rfl hlt
  · intro hge
    obtain ⟨snap2, h2, -⟩ := computeSnapshot_ok o cfg loc t2
    refine ⟨snap2, h2, ?_⟩
    rw [calc_all_miss o cfg loc _ t1 t2 rfl hge, h2]
    rfl

/-- A constant oracle used to instantiate witnesses. -/
def trivialOracle : Oracle :=
  { altaz := fun _ _ => (0, 0, 0)
    radec := fun _ _ => (0, 0)
    sepFromSun := fun _ _ => 0
    obsFromVenus := fun _ _ => (0, 0, 0)
    earthSunSepFromVenus := fun _ => 0
    pairDistance := fun _ _ _ => 0
    eclipticLon := fun _ _ => 0 }

/-- A configuration with no explicit keys (all defaults apply). -/
def defaultConfig : Config := { tracking_interval := none, calculate_all_planets := none }

/-- A nameless observer location at the origin. -/
def defaultLocation : Location := { name := none, latitude := 0, longitude := 0, elevation := 0 }

/-- Witness for C1: with the constant oracle, interval defaulting to 60,
t1 = 0 and t2 = 30, the second call is a cache hit for every oracle. -/
theorem calculate_cache_behavior_witness :
    ∃ snap1 : Snapshot,
      calculate_all_positions trivialOracle defaultConfig defaultLocation trackerInit 0
        = .ok (some snap1,
            { last_calculation := some snap1, last_calculation_time := some 0 }) ∧
      ∀ o' : Oracle,
        calculate_all_positions o' defaultConfig defaultLocation
            { last_calculation := some snap1, last_calculation_time := some 0 } 30
          = .ok (some snap1,
              { last_calculation := some snap1, last_calculation_time := some 0 }) := by
  obtain ⟨snap1, -, hfirst, hhit, -⟩ :=
    calculate_cache_behavior trivialOracle defaultConfig defaultLocation 0 30
  exact ⟨snap1, hfirst, hhit (by norm_num [Config.trackingInterval, defaultConfig])⟩

/-! Claim C9: the staleness predicate is signed. -/

/-- C9: after a first calculate(t1) on a fresh orchestrator, every t2 with
t2 - t1 < interval -- in particular every t2 strictly earlier than t1 (for
a nonnegative interval) -- is a cache hit: the call returns the cached
snapshot, whose timestamp field is t1 rather than t2, and neither
invalidates nor refreshes the cache slot. -/
theorem cache_signed_staleness (o : Oracle) (cfg : Config) (loc : Location) (t1 : ℚ) :
    ∃ snap1 : Snapshot,
      calculate_all_positions o cfg loc trackerInit t1
        = .ok (some snap1,
            { last_calculation := some snap1, last_calculation_time := some t1 }) ∧
      snap1.timestamp = t1 ∧
      (∀ t2 : ℚ, t2 - t1 < cfg.trackingInterval →
        calculate_all_positions o cfg loc
            { last_calculation := some snap1, last_calculation_time := some t1 } t2
          = .ok (some snap1,
              { last_calculation := some snap1, last_calculation_time := some t1 })) ∧
      (∀ t2 : ℚ, t2 < t1 → 0 ≤ cfg.trackingInterval →
        calculate_all_positions o cfg loc
            { last_calculation := some snap1, last_calculation_time := some t1 } t2
          = .ok (some snap1,
              { last_calculation := some snap1, last_calculation_time := some t1 })) := by
  obtain ⟨snap1, h1, hts⟩ := computeSnapshot_ok o cfg loc t1
  refine ⟨snap1, ?_, hts, ?_, ?_⟩
  · rw [calc_all_none o cfg loc trackerInit t1 rfl, h1]
    rfl
  · intro t2 hlt
    exact calc_all_hit o cfg loc
      { last_calculation := some snap1, last_calculation_time := some t1 } t1 t2 rfl hlt
  · intro t2 hearlier hiv
    exact calc_all_hit o cfg loc
      { last_calculation := some snap1, last_calculation_time := some t1 } t1 t2 rfl
      (by linarith)

/-- Witness for C9: requesting t2 = -5 after t1 = 0 (default interval 60)
returns the cached t1 snapshot unchanged. -/
theorem cache_signed_staleness_witness :
    ∃ snap1 : Snapshot,
      calculate_all_positions trivialOracle defaultConfig defaultLocation trackerInit 0
        = .ok (some snap1,
            { last_calculation := some snap1, last_calculation_time := some 0 }) ∧
      snap1.timestamp = 0 ∧
      calculate_all_positions trivialOracle defaultConfig defaultLocation
          { last_calculation := some snap1, last_calculation_time := some 0 } (-5)
        = .ok (some snap1,
            { last_calculation := some snap1, last_calculation_time := some 0 }) := by
  obtain ⟨snap1, hfirst, hts, -, hearly⟩ :=
    cache_signed_staleness trivialOracle defaultConfig defaultLocation 0
  exact ⟨snap1, hfirst, hts,
    hearly (-5) (by norm_num) (by norm_num [Config.trackingInterval, defaultConfig])⟩

/-! Claim C6: unregistered body names. -/

/-- C6: requesting the position of an unregistered body name yields the
not-found error, surfaced to the caller of that single call, and the
orchestrator's cache slot (both fields) is exactly what it was before the
failed call: the method contains no cache write at all, and in
`calculate_all_positions` the cache assignment sits after the body queries,
so a propagating error leaves the slot untouched. -/
theorem unknown_body_not_found (o : Oracle) (s : TrackerState) (body_name : String)
    (t : ℚ) (h : isRegisteredBody body_name = false) :
    calcBodyStep o s body_name t
      = (.error ("Unknown celestial body: " ++ body_name), s) ∧
    (calcBodyStep o s body_name t).2.last_calculation = s.last_calculation ∧
    (calcBodyStep o s body_name t).2.last_calculation_time = s.last_calculation_time := by
  refine ⟨?_, rfl, rfl⟩
  unfold calcBodyStep calculate_body_position
  rw [h]
  rfl

/-- Witness for C6 at the unregistered name pluto. -/
theorem unknown_body_not_found_witness :
    calcBodyStep trivialOracle trackerInit ("pluto") 0
      = (.error ("Unknown celestial body: pluto"), trackerInit) :=
  (unknown_body_not_found trivialOracle trackerInit ("pluto") 0 (by decide)).1

/-! Helper lemmas for the data logger. -/

lemma mem_insertCol (c k : String) (acc : List String) :
    c ∈ insertCol acc k ↔ c ∈ acc ∨ c = k := by
  unfold insertCol
  split_ifs with h
  · exact ⟨Or.inl, fun h' => h'.elim id (fun he => he ▸ h)⟩
  · simp [List.mem_append]

lemma mem_unionCols (c : String) (b a : List String) :
    c ∈ unionCols a b ↔ c ∈ a ∨ c ∈ b := by
  induction b generalizing a with
  | nil => simp [unionCols]
  | cons k rest ih =>
    have hstep : unionCols a (k :: rest) = unionCols (insertCol a k) rest := rfl
    rw [hstep, ih, mem_insertCol]
    simp [List.mem_cons]
    tauto

lemma foldl_cols_mem (c : String) (es : List Entry) (a : List String) :
    c ∈ es.foldl (fun acc e => unionCols acc (entryCols e)) a
      ↔ c ∈ a ∨ ∃ e ∈ es, c ∈ entryCols e := by
  induction es generalizing a with
  | nil => simp
  | cons e rest ih =>
    simp only [List.foldl_cons]
    rw [ih, mem_unionCols]
    simp [List.mem_cons]
    tauto

lemma frameOfEntries_cols_mem (c : String) (es : List Entry) :
    c ∈ (frameOfEntries es).cols ↔ ∃ e ∈ es, c ∈ entryCols e := by
  unfold frameOfEntries
  rw [foldl_cols_mem]
  simp

lemma baseline_cols_iff (fr : Frame) (h1 : fr.rows ≠ [])
    (h2 : ∀ r ∈ fr.rows, entryCols r = fr.cols) (c : String) :
    c ∈ fr.cols ↔ ∃ r ∈ fr.rows, c ∈ entryCols r := by
  constructor
  · intro hc
    obtain ⟨r0, hr0⟩ := List.exists_mem_of_ne_nil fr.rows h1
    exact ⟨r0, hr0, by rw [h2 r0 hr0]; exact hc⟩
  · rintro ⟨r, hr, hcr⟩
    rw [h2 r hr] at hcr
    exact hcr

/-- Column-membership characterization of every tabular rewrite. -/
lemma write_to_file_cols_mem (s : LoggerState) (hwf : baselineWf s.existing_data)
    (c : String) :
    c ∈ (write_to_file s).cols ↔
      (∃ r ∈ baselineRows s.existing_data, c ∈ entryCols r)
        ∨ (∃ e ∈ s.data, c ∈ entryCols e) := by
  cases hs : s.existing_data with
  | none =>
    have hw : write_to_file s = frameOfEntries s.data := by
      unfold write_to_file
      rw [hs]
    rw [hw, frameOfEntries_cols_mem]
    simp [baselineRows]
  | some fr =>
    rw [hs] at hwf
    obtain ⟨h1, h2⟩ := hwf
    have hw : write_to_file s = concatFrames fr (frameOfEntries s.data) := by
      unfold write_to_file
      rw [hs]
    rw [hw]
    simp only [baselineRows, concatFrames]
    rw [mem_unionCols, frameOfEntries_cols_mem, baseline_cols_iff fr h1 h2]

lemma lookupCell_eq_none (r : Entry) (c : String) (h : c ∉ entryCols r) :
    lookupCell r c = none := by
  induction r with
  | nil => rfl
  | cons kv rest ih =>
    simp only [entryCols, List.map_cons, List.mem_cons] at h
    push_neg at h
    unfold lookupCell
    rw [if_neg (fun he => h.1 he.symm)]
    exact ih h.2

lemma runSession_data (s : LoggerState) (inputs : List LogInput) :
    (runSession s inputs).data
      = s.data ++ inputs.map (fun i => mkEntry i.timeIso i.position i.atmosphere) := by
  induction inputs generalizing s with
  | nil => simp [runSession]
  | cons i rest ih =>
    simp only [runSession, List.foldl_cons, List.map_cons] at *
    rw [ih]
    simp [log_entry]

lemma runSession_existing (s : LoggerState) (inputs : List LogInput) :
    (runSession s inputs).existing_data = s.existing_data := by
  induction inputs generalizing s with
  | nil => rfl
  | cons i rest ih =>
    simp only [runSession, List.foldl_cons] at *
    rw [ih]
    rfl

lemma runSession_output (s : LoggerState) (inputs : List LogInput) :
    (runSession s inputs).output_file = s.output_file ∧
    (runSession s inputs).json_output_file = s.json_output_file := by
  induction inputs generalizing s with
  | nil => exact ⟨rfl, rfl⟩
  | cons i rest ih =>
    simp only [runSession, List.foldl_cons] at *
    rw [(ih (log_entry s i.timeIso i.position i.atmosphere)).1,
        (ih (log_entry s i.timeIso i.position i.atmosphere)).2]
    exact ⟨rfl, rfl⟩

lemma entriesOf_write (j : JsonFile) (e : RawEntry) :
    entriesOf (write_to_json j e) = entriesOf j ++ [e] := by
  cases j <;> rfl

lemma runSession_jsonEntries (s : LoggerState) (inputs : List LogInput) :
    entriesOf (runSession s inputs).jsonFile
      = entriesOf s.jsonFile
          ++ inputs.map (fun i =>
              ({ timeIso := i.timeIso, position := i.position,
                 atmosphere := i.atmosphere } : RawEntry)) := by
  induction inputs generalizing s with
  | nil => simp [runSession]
  | cons i rest ih =>
    simp only [runSession, List.foldl_cons, List.map_cons] at *
    rw [ih]
    simp [log_entry, entriesOf_write]

/-- The combined baseline-plus-buffer frame materialized by the logger. -/
def combinedFrame (baseline : Option Frame) (es : List Entry) : Frame :=
  match baseline with
  | some b => concatFrames b (frameOfEntries es)
  | none => frameOfEntries es

lemma combinedFrame_rows (baseline : Option Frame) (es : List Entry) :
    (combinedFrame baseline es).rows = baselineRows baseline ++ es := by
  cases baseline <;> simp [combinedFrame, concatFrames, frameOfEntries, baselineRows]

lemma write_to_file_eq (s : LoggerState) :
    write_to_file s = combinedFrame s.existing_data s.data := by
  unfold write_to_file combinedFrame
  cases s.existing_data <;> rfl

lemma export_data_csv (s : LoggerState) (h : s.data ≠ []) :
    export_data s ("csv") none = some (s.output_file, combinedFrame s.existing_data s.data) := by
  unfold export_data combinedFrame
  rw [if_neg h, if_pos (by decide : lowerName ("csv") = "csv")]
  rfl

lemma export_data_json (s : LoggerState) (h : s.data ≠ []) :
    export_data s ("json") none
      = some (s.json_output_file, combinedFrame s.existing_data s.data) := by
  unfold export_data combinedFrame
  rw [if_neg h, if_neg (by decide : ¬ lowerName ("json") = "csv"),
      if_pos (by decide : lowerName ("json") = "json")]
  rfl

/-! Claim C4: the tabular column-union invariant. -/

/-- C4: in every session (any baseline whose parsed rows carry exactly the
header's columns, any structured-sink start, any inputs) and after every
append (the (k+1)-st), the rewritten tabular file's column set is exactly
the union of the keys present in some baseline row or some buffered entry
to date; performing the next append never removes a column; and a key
absent from a row serializes as null (its cell is `none`) while every
serialized row still has one cell per column, so no write failure can come
from a missing key. -/
theorem tabular_columns_union (base : Option Frame) (hwf : baselineWf base)
    (j0 : JsonFile) (of jf : String) (inputs : List LogInput) (k : ℕ)
    (hk : k < inputs.length) :
    (∀ c, c ∈ (write_to_file (runSession (openLogger base j0 of jf)
          (inputs.take (k + 1)))).cols ↔
        ((∃ r ∈ baselineRows base, c ∈ entryCols r) ∨
         (∃ e ∈ (runSession (openLogger base j0 of jf) (inputs.take (k + 1))).data,
            c ∈ entryCols e))) ∧
    (write_to_file (runSession (openLogger base j0 of jf) (inputs.take k))).cols
      ⊆ (write_to_file (runSession (openLogger base j0 of jf) (inputs.take (k + 1)))).cols ∧
    (∀ r ∈ (write_to_file (runSession (openLogger base j0 of jf)
        (inputs.take (k + 1)))).rows,
      ∀ c, c ∉ entryCols r → lookupCell r c = none) ∧
    (∀ cells ∈ csvCells (write_to_file (runSession (openLogger base j0 of jf)
        (inputs.take (k + 1)))),
      cells.length = (write_to_file (runSession (openLogger base j0 of jf)
        (inputs.take (k + 1)))).cols.length) := by
  have hwfAt : ∀ (is : List LogInput),
      baselineWf (runSession (openLogger base j0 of jf) is).existing_data := by
    intro is
    rw [runSession_existing]
    exact hwf
  have hchar : ∀ (is : List LogInput) (c : String),
      c ∈ (write_to_file (runSession (openLogger base j0 of jf) is)).cols ↔
        ((∃ r ∈ baselineRows base, c ∈ entryCols r) ∨
         (∃ e ∈ (runSession (openLogger base j0 of jf) is).data, c ∈ entryCols e)) := by
    intro is c
    have := write_to_file_cols_mem (runSession (openLogger base j0 of jf) is) (hwfAt is) c
    rwa [runSession_existing] at this
  refine ⟨hchar _, ?_, ?_, ?_⟩
  · intro c hc
    rw [hchar (inputs.take k) c] at hc
    rw [hchar (inputs.take (k + 1)) c]
    rcases hc with hbase | ⟨e, he, hce⟩
    · exact Or.inl hbase
    · refine Or.inr ⟨e, ?_, hce⟩
      rw [runSession_data] at he ⊢
      have hsub : inputs.take k ⊆ inputs.take (k + 1) := by
        intro x hx
        have heq : inputs.take k = (inputs.take (k + 1)).take k := by
          rw [List.take_take]
          congr 1
          omega
        rw [heq] at hx
        exact List.take_subset _ _ hx
      simp only [openLogger, List.nil_append] at he ⊢
      exact List.map_subset _ hsub he
  · intro r _ c hcr
    exact lookupCell_eq_none r c hcr
  · intro cells hcells
    unfold csvCells at hcells
    obtain ⟨r, -, hr⟩ := List.mem_map.mp hcells
    rw [← hr]
    exact List.length_map _ _

/-- A minimal position used to instantiate logger witnesses. -/
def witnessPosition : LoggedPosition :=
  { observer_location_name := none
    observer_latitude := none
    observer_longitude := none
    altitude := 0
    azimuth := 0
    distance := Sum.inl 0
    ra := none
    dec := none
    elongation := none }

/-- A one-entry session input used to instantiate logger witnesses. -/
def witnessInput : LogInput :=
  { timeIso := "2024-01-01T00:00:00", position := witnessPosition, atmosphere := none }

/-- Witness for C4: a two-append session over an empty baseline; the column
set after the first append is contained in the column set after the
second. -/
theorem tabular_columns_union_witness :
    (write_to_file (runSession (openLogger none JsonFile.missing ("o.csv") ("o.json"))
        ([witnessInput, witnessInput].take 0))).cols
      ⊆ (write_to_file (runSession (openLogger none JsonFile.missing ("o.csv") ("o.json"))
        ([witnessInput, witnessInput].take 1))).cols :=
  (tabular_columns_union none trivial JsonFile.missing ("o.csv") ("o.json")
    [witnessInput, witnessInput] 0 (by norm_num)).2.1

/-! Claim C5: row counts of the export. -/

/-- C5: opening the logger against a baseline with B rows and appending
M >= 1 entries makes the tabular export contain exactly B + M rows, whose
session part is exactly the M buffered entries, in both the tabular and
structured export formats; the live structured sink likewise grows by
exactly the M raw entries of the session. -/
theorem export_row_counts (base : Option Frame) (j0 : JsonFile) (of jf : String)
    (inputs : List LogInput) (hM : inputs ≠ []) :
    ∃ fr : Frame,
      export_data (runSession (openLogger base j0 of jf) inputs) ("csv") none
        = some (of, fr) ∧
      export_data (runSession (openLogger base j0 of jf) inputs) ("json") none
        = some (jf, fr) ∧
      fr.rows = baselineRows base ++ (runSession (openLogger base j0 of jf) inputs).data ∧
      (runSession (openLogger base j0 of jf) inputs).data.length = inputs.length ∧
      fr.rows.length = (baselineRows base).length + inputs.length ∧
      entriesOf (runSession (openLogger base j0 of jf) inputs).jsonFile
        = entriesOf j0 ++ inputs.map (fun i =>
            ({ timeIso := i.timeIso, position := i.position,
               atmosphere := i.atmosphere } : RawEntry)) ∧
      (inputs.map (fun i =>
          ({ timeIso := i.timeIso, position := i.position,
             atmosphere := i.atmosphere } : RawEntry))).length = inputs.length := by
  have hdata : (runSession (openLogger base j0 of jf) inputs).data
      = inputs.map (fun i => mkEntry i.timeIso i.position i.atmosphere) := by
    rw [runSession_data]
    rfl
  have hne : (runSession (openLogger base j0 of jf) inputs).data ≠ [] := by
    rw [hdata]
    simpa using hM
  have hex : (runSession (openLogger base j0 of jf) inputs).existing_data = base := by
    rw [runSession_existing]
    rfl
  refine ⟨combinedFrame base (runSession (openLogger base j0 of jf) inputs).data,
    ?_, ?_, ?_, ?_, ?_, ?_, ?_⟩
  · rw [export_data_csv _ hne, hex, (runSession_output _ _).1]
    rfl
  · rw [export_data_json _ hne, hex, (runSession_output _ _).2]
    rfl
  · exact combinedFrame_rows base _
  · rw [hdata, List.length_map]
  · rw [combinedFrame_rows base _, List.length_append, hdata, List.length_map]
  · rw [runSession_jsonEntries]
    rfl
  · exact List.length_map _ _

/-- Witness for C5: one append over an empty baseline, exported to csv,
yields 0 + 1 rows. -/
theorem export_row_counts_witness :
    ∃ fr : Frame,
      export_data (runSession (openLogger none JsonFile.missing ("o.csv") ("o.json"))
          [witnessInput]) ("csv") none = some ("o.csv", fr) ∧
      fr.rows.length = (baselineRows (none : Option Frame)).length + [witnessInput].length := by
  obtain ⟨fr, hcsv, -, -, -, hlen, -, -⟩ :=
    export_row_counts none JsonFile.missing ("o.csv") ("o.json") [witnessInput] (by simp)
  exact ⟨fr, hcsv, hlen⟩

/-! Claim C10: export with an empty session buffer. -/

/-- C10: with an empty in-session buffer, export returns no path and writes
nothing (the model's `none` result means no file is touched), for every
requested format string -- supported or not -- and every output path and any
loaded baseline; and as soon as the buffer is non-empty a csv export
materializes baseline plus buffer. -/
theorem export_empty_buffer (s : LoggerState) (h : s.data = []) :
    (∀ (format_type : String) (output_path : Option String),
      export_data s format_type output_path = none) ∧
    (∀ s' : LoggerState, s'.data ≠ [] →
      export_data s' ("csv") none
        = some (s'.output_file, combinedFrame s'.existing_data s'.data)) := by
  refine ⟨fun fmt path => ?_, fun s' h' => export_data_csv s' h'⟩
  unfold export_data
  rw [if_pos h]

/-- Witness for C10: a logger opened over a non-empty baseline but with no
session append returns no path even for an unsupported format. -/
theorem export_empty_buffer_witness :
    export_data (openLogger
        (some { cols := ["timestamp"], rows := [[("timestamp", Value.str "x")]] })
        JsonFile.missing ("o.csv") ("o.json")) ("xml") (some ("elsewhere.xml")) = none :=
  (export_empty_buffer _ rfl).1 ("xml") (some ("elsewhere.xml"))

end Venus
